import Mathlib

/-!
Shallow embedding of `src/src/socketio/redis_manager.py`.

The file models the two client managers of that module:

* `RedisManager` (direct variant): `_publish` (lines 75-88),
  `_redis_listen_with_retries` (lines 90-108) and `_listen` (lines 110-117).
* `RedisSentinelManager` (HA variant): `__init__` (lines 123-142),
  `_redis_connect` (lines 144-156), `_publish` (lines 158-170) and
  `_redis_listen_with_retries` (lines 172-197).

Broker interactions (redis calls) are modelled by environment records that
say, per call, whether the call raises `redis.exceptions.RedisError` and what
it returns otherwise.  The generator loops are modelled as step functions on
an explicit loop state; one application of the step function is one execution
of the `while True:` body.
-/

/- ## Environment of the publish path -/

/-- Outcomes the broker gives to the publish path.  `connectOk n` tells
whether the `n`-th call that can raise inside `_redis_connect` (for the HA
variant this is `sentinel.discover_master`, which raises a subclass of
`RedisError` when no master is known) succeeds.  `publishRes n` is the result
of the `n`-th `self.redis.publish(...)` call: `some v` means it returned the
integer `v` (the number of clients that received the message), `none` means
it raised `RedisError`. -/
structure PubEnv where
  connectOk : Nat → Bool
  publishRes : Nat → Option Nat

/-- Value of a `_publish` call: the Python function returns the integer reply
of `redis.publish` on success, and falls out of the loop returning `None`
(modelled as `dropped`) after the retry gives up. -/
inductive PubResult
  | published (v : Nat)
  | dropped
deriving DecidableEq, Repr

/-- Broker operations performed by `_publish`, in order: a `_redis_connect`
call or a `self.redis.publish` attempt. -/
inductive PubAction
  | connectAct
  | publishAct
deriving DecidableEq, Repr

/-- Python truthiness of the value `_publish` returns: an integer is truthy
iff it is nonzero, and `None` (`dropped`) is falsy. -/
def pyTruthy : PubResult → Bool
  | PubResult.published v => v != 0
  | PubResult.dropped => false

/-- `RedisManager._publish` (lines 75-88).  The `while True:` loop runs at
most two iterations, unrolled here.  First iteration (`retry = True`): no
reconnect, one publish attempt; on `RedisError` the flag is cleared and the
loop repeats.  Second iteration (`retry = False`): `_redis_connect()` then
one more publish attempt; on `RedisError` the loop breaks and the function
returns `None`.  The base `_redis_connect` (lines 70-73) only constructs a
client with `redis.Redis.from_url` and a pubsub object, with no network
round-trip, so it cannot raise `RedisError`; the model therefore treats it as
infallible and records it as a `connectAct` event. -/
def RedisManager._publish (env : PubEnv) : PubResult × List PubAction :=
  match env.publishRes 0 with
  | some v => (PubResult.published v, [PubAction.publishAct])
  | none =>
    match env.publishRes 1 with
    | some v => (PubResult.published v,
        [PubAction.publishAct, PubAction.connectAct, PubAction.publishAct])
    | none => (PubResult.dropped,
        [PubAction.publishAct, PubAction.connectAct, PubAction.publishAct])

/-- Second iteration (`retry = False`) of `RedisSentinelManager._publish`
(lines 158-170): the try block is `self._redis_connect()` followed by the
publish; the HA `_redis_connect` calls `sentinel.discover_master` which can
raise.  `nc` and `np` are the indices of the next connect and publish calls
in the environment.  On `RedisError` the loop breaks and returns `None`. -/
def sentinelPublishRetry (env : PubEnv) (nc np : Nat) : PubResult × List PubAction :=
  if env.connectOk nc then
    match env.publishRes np with
    | some v => (PubResult.published v, [PubAction.connectAct, PubAction.publishAct])
    | none => (PubResult.dropped, [PubAction.connectAct, PubAction.publishAct])
  else (PubResult.dropped, [PubAction.connectAct])

/-- `RedisSentinelManager._publish` (lines 158-170).  Unlike the base class,
the try block begins with an unconditional `self._redis_connect()`, so a
connect happens before every publish attempt, the first one included.  First
iteration (`retry = True`): connect, publish; on `RedisError` (from either
call) the flag is cleared and the loop repeats as `sentinelPublishRetry`. -/
def RedisSentinelManager._publish (env : PubEnv) : PubResult × List PubAction :=
  if env.connectOk 0 then
    match env.publishRes 0 with
    | some v => (PubResult.published v, [PubAction.connectAct, PubAction.publishAct])
    | none =>
      let r := sentinelPublishRetry env 1 1
      (r.1, PubAction.connectAct :: PubAction.publishAct :: r.2)
  else
    let r := sentinelPublishRetry env 1 0
    (r.1, PubAction.connectAct :: r.2)

/- ## URL construction and constructor fragments of the HA variant -/

/-- Python exception kinds raised by the modelled constructor code paths. -/
inductive PyErr
  | typeError
  | indexError
deriving DecidableEq, Repr

/-- Python string concatenation `a + b` where `b` may be `None`: adding a
`str` and `None` raises `TypeError`. -/
def pyStrAdd (a : String) (b : Option String) : Except PyErr String :=
  match b with
  | some s => Except.ok (a ++ s)
  | none => Except.error PyErr.typeError

/-- Line 146 of `RedisSentinelManager._redis_connect`: the connection URL is
built by string concatenation,
`redis://: + password + @ + master_ip + : + str(master_port) + / + str(db)`,
where `password` is `redis_options[..]` and may be `None` (the constructor
default). -/
def RedisSentinelManager.buildRedisUrl (password : Option String) (host : String)
    (port : Nat) (db : Nat) : Except PyErr String :=
  match pyStrAdd "redis://:" password with
  | Except.error e => Except.error e
  | Except.ok pre =>
      Except.ok (pre ++ "@" ++ host ++ ":" ++ toString port ++ "/" ++ toString db)

/-- Python list indexing `l[i]`: raises `IndexError` when `i` is out of
range. -/
def pyIndex {α : Type} (l : List α) (i : Nat) : Except PyErr α :=
  match l.get? i with
  | some x => Except.ok x
  | none => Except.error PyErr.indexError

/-- Line 131 of `RedisSentinelManager.__init__`: the failover pubsub
connection is built from `sentinels[0][0]` and `sentinels[0][1]`, the first
entry of the `sentinels` list (line 130, `redis.Sentinel(sentinels, ...)`,
accepts an empty list without raising). -/
def RedisSentinelManager.failoverEndpoint (sentinels : List (String × Nat)) :
    Except PyErr (String × Nat) :=
  pyIndex sentinels 0

/- ## Messages and the listen filter -/

/-- A message dictionary as produced by the redis pubsub client: a channel
(bytes, compared against `self.channel.encode(..)`; utf-8 encoding is
injective so the model compares the strings themselves), a type field
("message" for data, "subscribe" / "unsubscribe" for control
acknowledgements), and the optional data payload (`data : none` models a
dictionary without a "data" key; the payload blob itself is opaque and
modelled as a natural number). -/
structure RMessage where
  channel : String
  type : String
  data : Option Nat
deriving DecidableEq, Repr

/-- The filter condition of `RedisManager._listen` (lines 114-116): a message
is yielded (as `message[..data..]`) exactly when its channel equals the
encoded configured channel, its type is "message", and the "data" key is
present. -/
def RedisManager.listenFilter (chan : String) (m : RMessage) : Option Nat :=
  if m.channel == chan && m.type == "message" && m.data.isSome then m.data
  else none

/-- `RedisManager._listen` (lines 110-117) restricted to its filtering
behaviour on a list of inbound messages: each message of the retried listen
sequence passes through the condition of lines 114-115 and the payloads of
the passing ones are yielded in order. -/
def RedisManager._listen (chan : String) (msgs : List RMessage) : List Nat :=
  msgs.filterMap (RedisManager.listenFilter chan)

/- ## The retried listen loop of the direct variant -/

/-- Loop state of `_redis_listen_with_retries`: the local variables
`retry_sleep` and `connect` (lines 91-92).  Both variants start from
`retry_sleep = 1`, `connect = False`. -/
structure ListenState where
  retry_sleep : Nat
  connect : Bool
deriving DecidableEq, Repr

/-- Broker outcomes for one iteration of the `while True:` body of
`RedisManager._redis_listen_with_retries` (lines 93-108).  `connectOk` and
`subscribeOk` say whether `self._redis_connect()` and
`self.pubsub.subscribe(...)` succeed (consulted only when the `connect` flag
is set, since otherwise those calls are not made).  `msgs` are the messages
the `self.pubsub.listen()` iterator produces during the iteration, and
`listenErr` says whether the iterator then raises `RedisError` (`true`) or
ends normally (`false`). -/
structure TryEnv where
  connectOk : Bool
  subscribeOk : Bool
  msgs : List RMessage
  listenErr : Bool

/-- Events observable from one loop iteration: a message handed to `yield`,
or a `time.sleep(retry_sleep)` back-off sleep of the given length. -/
inductive LEvent
  | yieldMsg (m : RMessage)
  | sleep (n : Nat)
deriving DecidableEq, Repr

/-- The `except redis.exceptions.RedisError:` handler (lines 101-108): sleep
for the current `retry_sleep`, then double it and clamp it to 60, and set
`connect = True` so the next iteration reconnects. -/
def backoff (s : ListenState) : ListenState × List LEvent :=
  ({ retry_sleep := if s.retry_sleep * 2 > 60 then 60 else s.retry_sleep * 2,
     connect := true },
   [LEvent.sleep s.retry_sleep])

/-- One iteration of the `while True:` body of
`RedisManager._redis_listen_with_retries` (lines 93-108).  If `connect` is
set, `_redis_connect()` and `subscribe` run first; a `RedisError` from either
goes to the handler with `retry_sleep` unchanged, and on success
`retry_sleep` resets to 1.  Then the `for message in self.pubsub.listen():`
loop yields the messages of the iteration; if the iterator raises
`RedisError` the handler runs with the (possibly reset) `retry_sleep`, and if
it ends normally the while loop simply re-enters with the state unchanged. -/
def listenStep (s : ListenState) (e : TryEnv) : ListenState × List LEvent :=
  if s.connect && !e.connectOk then backoff s
  else if s.connect && !e.subscribeOk then backoff s
  else
    let s1 := if s.connect then { s with retry_sleep := 1 } else s
    let yields := e.msgs.map LEvent.yieldMsg
    if e.listenErr then
      let r := backoff s1
      (r.1, yields ++ r.2)
    else (s1, yields)

/-- Whether the iteration raises `RedisError` somewhere in its try block,
matching exactly the cases in which `listenStep` runs the handler. -/
def stepErrored (s : ListenState) (e : TryEnv) : Bool :=
  (s.connect && (!e.connectOk || !e.subscribeOk)) || e.listenErr

/-- One loop iteration with an explicit exit indicator: `none` would mean the
iteration left the `while True:` loop (by break, return, or an exception the
`except` clause does not catch).  The body of lines 93-108 contains no break
or return, and the only exception the modelled broker calls raise is
`RedisError`, which line 101 catches; so every branch continues the loop. -/
def listenStepE (s : ListenState) (e : TryEnv) : Option (ListenState × List LEvent) :=
  some (listenStep s e)

/-- Loop state at the start of iteration `n`, starting from
`retry_sleep = 1`, `connect = False` (lines 91-92). -/
def stateAt (env : Nat → TryEnv) : Nat → ListenState
  | 0 => ⟨1, false⟩
  | n + 1 => (listenStep (stateAt env n) (env n)).1

/-- Events of iteration `n`. -/
def eventsAt (env : Nat → TryEnv) (n : Nat) : List LEvent :=
  (listenStep (stateAt env n) (env n)).2

/-- Concatenated events of the first `n` iterations. -/
def eventsUpTo (env : Nat → TryEnv) : Nat → List LEvent
  | 0 => []
  | n + 1 => eventsUpTo env n ++ eventsAt env n

/- ## The trailing unsubscribe of listen -/

/-- Events of `RedisManager._listen` (lines 110-117): the initial
`subscribe`, the yielded payloads, and the `unsubscribe` of line 117 that
would run after the for loop over `_redis_listen_with_retries()` ends. -/
inductive OuterEvent
  | subscribeEv
  | dataEv (d : Nat)
  | unsubscribeEv
deriving DecidableEq, Repr

/-- Whether iteration `k` of the retried generator exits its loop. -/
def exitsAt (env : Nat → TryEnv) (k : Nat) : Bool :=
  (listenStepE (stateAt env k) (env k)).isNone

/-- Whether the retried generator has left its `while True:` loop within the
first `n` iterations. -/
def terminatedBy (env : Nat → TryEnv) (n : Nat) : Bool :=
  (List.range n).any (exitsAt env)

/-- Payloads `_listen` has yielded after `n` iterations of the retried
generator: every message handed up by `yield message` on line 100, passed
through the filter of lines 114-116. -/
def yieldsUpTo (chan : String) (env : Nat → TryEnv) (n : Nat) : List Nat :=
  (eventsUpTo env n).filterMap fun ev =>
    match ev with
    | LEvent.yieldMsg m => RedisManager.listenFilter chan m
    | LEvent.sleep _ => none

/-- Trace of `RedisManager._listen` after `n` iterations of the retried
generator: the subscribe of line 112, the yielded payloads, and, only if the
retried generator has terminated, the unsubscribe of line 117. -/
def listenTrace (chan : String) (env : Nat → TryEnv) (n : Nat) : List OuterEvent :=
  OuterEvent.subscribeEv :: ((yieldsUpTo chan env n).map OuterEvent.dataEv
    ++ (if terminatedBy env n then [OuterEvent.unsubscribeEv] else []))

/-- Boolean test for the unsubscribe event. -/
def isUnsubscribeEv : OuterEvent → Bool
  | OuterEvent.unsubscribeEv => true
  | _ => false

/- ## The retried listen loop of the HA variant -/

/-- Broker outcomes for one iteration of the `while True:` body of
`RedisSentinelManager._redis_listen_with_retries` (lines 175-197).
`resolveOk1` / `subscribeOk1` govern the reconnect branch guarded by the
`connect` flag (lines 177-180); `failoverCheck` is the result of
`self.failover.get_message(...)` on line 181 (`none` means the call raised
`RedisError`, `some b` means it returned a message-like truthy value iff
`b`); `resolveOk2` / `subscribeOk2` govern the reconnect of the failover
branch (lines 183-184); `master` is the `(host, port)` pair
`sentinel.discover_master` currently resolves to (line 145); `getMsg` is the
result of `self.pubsub.get_message(...)` on line 185 (`none` means it raised,
`some m` means it returned `m`, which is `None` when no message is
pending). -/
structure SEnv where
  resolveOk1 : Bool
  subscribeOk1 : Bool
  failoverCheck : Option Bool
  resolveOk2 : Bool
  subscribeOk2 : Bool
  master : String × Nat
  getMsg : Option (Option RMessage)

/-- Events observable from one iteration of the HA listen loop:
`sentinel.discover_master` resolving the master location, a fresh connection
to a resolved master (`redis.Redis.from_url` on the URL built from it), a
`pubsub.subscribe` call, a message handed to `yield`, the fixed
`time.sleep(0.001)` poll sleep of line 188, and the back-off
`time.sleep(retry_sleep)` of line 194. -/
inductive SEvent
  | resolve (h : String × Nat)
  | connectTo (h : String × Nat)
  | subscribe
  | yieldMsg (m : RMessage)
  | pollSleep
  | backoffSleep (n : Nat)
deriving DecidableEq, Repr

/-- The try block of lines 176-188, run to completion or to its first
`RedisError`.  Returns the events produced before the outcome, and either
`Except.ok` with the state at the end of the block or `Except.error` with
the state at the raise point (the handler reads `retry_sleep` from it; note
lines 177-180 reset `retry_sleep` to 1 only after `_redis_connect` and
`subscribe` both succeeded, so a raise inside that branch sees the old
value while a raise later in the block sees the reset one). -/
def sentinelTryRun (s : ListenState) (e : SEnv) :
    List SEvent × Except ListenState ListenState :=
  if s.connect && !e.resolveOk1 then ([], Except.error s)
  else if s.connect && !e.subscribeOk1 then
    ([SEvent.resolve e.master, SEvent.connectTo e.master], Except.error s)
  else
    let ev1 : List SEvent :=
      if s.connect then
        [SEvent.resolve e.master, SEvent.connectTo e.master, SEvent.subscribe]
      else []
    let s1 : ListenState := if s.connect then { s with retry_sleep := 1 } else s
    match e.failoverCheck with
    | none => (ev1, Except.error s1)
    | some fo =>
      if fo && !e.resolveOk2 then (ev1, Except.error s1)
      else if fo && !e.subscribeOk2 then
        (ev1 ++ [SEvent.resolve e.master, SEvent.connectTo e.master],
         Except.error s1)
      else
        let ev2 : List SEvent :=
          if fo then
            [SEvent.resolve e.master, SEvent.connectTo e.master, SEvent.subscribe]
          else []
        match e.getMsg with
        | none => (ev1 ++ ev2, Except.error s1)
        | some m =>
          (ev1 ++ ev2
            ++ (match m with
                | some msg => [SEvent.yieldMsg msg]
                | none => [])
            ++ [SEvent.pollSleep],
           Except.ok s1)

/-- One iteration of the `while True:` body of
`RedisSentinelManager._redis_listen_with_retries` (lines 175-197): run the
try block; if it raised `RedisError`, run the handler of lines 189-197
(set `connect = True`, sleep `retry_sleep`, double and clamp it to 60). -/
def sentinelStep (s : ListenState) (e : SEnv) : ListenState × List SEvent :=
  match sentinelTryRun s e with
  | (ev, Except.ok s1) => (s1, ev)
  | (ev, Except.error sE) =>
    ({ retry_sleep := if sE.retry_sleep * 2 > 60 then 60 else sE.retry_sleep * 2,
       connect := true },
     ev ++ [SEvent.backoffSleep sE.retry_sleep])

/-- Whether the iteration raised `RedisError`, i.e. whether `sentinelStep`
runs the handler. -/
def sentinelRaised (s : ListenState) (e : SEnv) : Bool :=
  match (sentinelTryRun s e).2 with
  | Except.error _ => true
  | Except.ok _ => false

/-- One HA loop iteration with an explicit exit indicator, as `listenStepE`:
the body of lines 175-197 contains no break or return, and its only
exceptions are `RedisError`, caught on line 189, so every branch continues
the loop. -/
def sentinelStepE (s : ListenState) (e : SEnv) : Option (ListenState × List SEvent) :=
  some (sentinelStep s e)

/-- HA loop state at the start of iteration `n`, starting from
`retry_sleep = 1`, `connect = False` (lines 173-174). -/
def sstateAt (env : Nat → SEnv) : Nat → ListenState
  | 0 => ⟨1, false⟩
  | n + 1 => (sentinelStep (sstateAt env n) (env n)).1

/- ## Theorems -/

/-- C8, counterexample: with the password configured as absent (`None`), the
URL construction of line 146 does not produce any URL, malformed or
otherwise: the string concatenation raises `TypeError` at the concrete input
`password = None`, `master = ("localhost", 6379)`, `db = 0`. -/
theorem c8_counterexample_none_password :
    RedisSentinelManager.buildRedisUrl none "localhost" 6379 0 =
      Except.error PyErr.typeError := rfl

/-- C8, amended: in the HA variant, if the password is configured as absent
(`None`), building the connection URL by string-concatenating the password
into it raises an uncaught `TypeError` rather than a clear configuration
error; when a password string is present, no validation happens and the URL
is assembled by plain concatenation. -/
theorem c8_missing_password_raises_typeerror :
    (∀ (host : String) (port db : Nat),
      RedisSentinelManager.buildRedisUrl none host port db =
        Except.error PyErr.typeError) ∧
    (∀ (pw host : String) (port db : Nat),
      RedisSentinelManager.buildRedisUrl (some pw) host port db =
        Except.ok ("redis://:" ++ pw ++ "@" ++ host ++ ":" ++ toString port
          ++ "/" ++ toString db)) :=
  ⟨fun _ _ _ => rfl, fun _ _ _ _ => rfl⟩

/-- C9: constructing a `RedisSentinelManager` with an empty sentinels list
raises `IndexError` when line 131 indexes the first sentinel for the
failover subscription, and the indexing succeeds exactly when the list is
non-empty, so non-emptiness is an unstated precondition of the
constructor. -/
theorem c9_empty_sentinels_indexerror :
    (RedisSentinelManager.failoverEndpoint [] = Except.error PyErr.indexError) ∧
    (∀ (s : String × Nat) (rest : List (String × Nat)),
       RedisSentinelManager.failoverEndpoint (s :: rest) = Except.ok s) :=
  ⟨rfl, fun _ _ => rfl⟩

/-- C2, counterexample: in `RedisSentinelManager._publish`, with a broker
whose connects succeed but whose publishes always raise, the trace contains
two connect calls, not exactly one reconnect; and even when every call
succeeds, the very first action of the trace is a connect, so a reconnect
does happen before the first publish attempt. -/
theorem c2_counterexample :
    ((RedisSentinelManager._publish ⟨fun _ => true, fun _ => none⟩).2.count
        PubAction.connectAct = 2) ∧
    ((RedisSentinelManager._publish ⟨fun _ => true, fun _ => some 1⟩).2.head? =
        some PubAction.connectAct) := ⟨rfl, rfl⟩

/-- C2, amended: the base `RedisManager._publish` publishes first without any
reconnect, performs exactly one reconnect and exactly one further publish
attempt after a transport error, and returns the failure value `None`
(without raising) when the second attempt also fails.  The overriding
`RedisSentinelManager._publish` instead reconnects before every publish
attempt, the first included, so its traces start with a connect and contain
up to two connects and up to two publish attempts. -/
theorem c2_amended_publish_policy :
    (∀ env : PubEnv,
      (RedisManager._publish env).2.head? = some PubAction.publishAct) ∧
    (∀ env : PubEnv, env.publishRes 0 = none →
      (RedisManager._publish env).2 =
        [PubAction.publishAct, PubAction.connectAct, PubAction.publishAct]) ∧
    (∀ env : PubEnv, env.publishRes 0 = none → env.publishRes 1 = none →
      (RedisManager._publish env).1 = PubResult.dropped) ∧
    (∀ env : PubEnv,
      (RedisSentinelManager._publish env).2.head? = some PubAction.connectAct) ∧
    (∀ env : PubEnv,
      (RedisSentinelManager._publish env).2.count PubAction.connectAct ≤ 2 ∧
      (RedisSentinelManager._publish env).2.count PubAction.publishAct ≤ 2) := by
  refine ⟨?_, ?_, ?_, ?_, ?_⟩
  · intro env
    unfold RedisManager._publish
    rcases h0 : env.publishRes 0 with _ | v0 <;>
      rcases h1 : env.publishRes 1 with _ | v1 <;> simp
  · intro env h0
    unfold RedisManager._publish
    rcases h1 : env.publishRes 1 with _ | v1 <;> simp [h0, h1]
  · intro env h0 h1
    unfold RedisManager._publish
    simp [h0, h1]
  · intro env
    unfold RedisSentinelManager._publish
    rcases hc : env.connectOk 0 <;>
      rcases h0 : env.publishRes 0 with _ | v0 <;> simp [hc, h0]
  · intro env
    unfold RedisSentinelManager._publish sentinelPublishRetry
    rcases hc : env.connectOk 0 <;>
      rcases hc1 : env.connectOk 1 <;>
      rcases h0 : env.publishRes 0 with _ | v0 <;>
      rcases h1 : env.publishRes 1 with _ | v1 <;>
      simp [hc, hc1, h0, h1]

/-- C2, witness for the amended theorem: a broker whose publishes always
raise makes the base `_publish` perform the exact three-action trace
publish, connect, publish, and return the `None` failure value. -/
theorem c2_amended_witness :
    ((RedisManager._publish ⟨fun _ => true, fun _ => none⟩).2 =
      [PubAction.publishAct, PubAction.connectAct, PubAction.publishAct]) ∧
    ((RedisManager._publish ⟨fun _ => true, fun _ => none⟩).1 =
      PubResult.dropped) :=
  ⟨c2_amended_publish_policy.2.1 ⟨fun _ => true, fun _ => none⟩ rfl,
   c2_amended_publish_policy.2.2.1 ⟨fun _ => true, fun _ => none⟩ rfl rfl⟩

/-- C7, counterexample: `_publish` does not return a boolean success
indicator.  With a broker whose publish succeeds but reaches zero
subscribers, the call returns the integer 0, which is falsy in Python even
though the publish succeeded; and the failure value is `None`, not `False`. -/
theorem c7_counterexample_zero_reply :
    ((RedisManager._publish ⟨fun _ => true, fun _ => some 0⟩).1 =
      PubResult.published 0) ∧
    (pyTruthy (RedisManager._publish ⟨fun _ => true, fun _ => some 0⟩).1 =
      false) ∧
    (pyTruthy PubResult.dropped = false) := ⟨rfl, rfl, rfl⟩

/-- C7, amended: `_publish` returns the integer reply of `redis.publish`
(the number of receiving clients) when an attempt succeeds and the failure
value `None` exactly when both the initial attempt and the post-reconnect
retry raise; the returned value is not a boolean, and its truthiness is not
a success indicator because a successful publish can return 0. -/
theorem c7_amended_publish_return :
    ∀ env : PubEnv,
      ((RedisManager._publish env).1 = PubResult.dropped ↔
        (env.publishRes 0 = none ∧ env.publishRes 1 = none)) ∧
      (∀ v : Nat, (RedisManager._publish env).1 = PubResult.published v ↔
        (env.publishRes 0 = some v ∨
          (env.publishRes 0 = none ∧ env.publishRes 1 = some v))) := by
  intro env
  unfold RedisManager._publish
  rcases h0 : env.publishRes 0 with _ | v0 <;>
    rcases h1 : env.publishRes 1 with _ | v1 <;>
    simp [h0, h1]

/-- Environment of the C1 scenario: the initial listen drops with a
transport error (iteration 0), the next two reconnect attempts fail
(iterations 1 and 2), then the reconnect succeeds and the restored listen
errors again (iteration 3). -/
def c1env : Nat → TryEnv := fun n =>
  match n with
  | 0 => ⟨true, true, [], true⟩
  | 1 => ⟨false, true, [], false⟩
  | 2 => ⟨false, true, [], false⟩
  | _ => ⟨true, true, [], true⟩

/-- C1: in the retry loop of `RedisManager._redis_listen_with_retries` the
delay starts at 1 and three consecutive failures sleep 1, 2 and 4, after
which a successful reconnect resets the delay so the next failure sleeps 1
again (first conjunct); after a failure in the non-reconnecting state the
delay doubles, clamped to 60 (second conjunct); a successful reconnect
resets the delay to 1 (third conjunct); and at the 60 cap a further failure
keeps the delay at 60 (fourth conjunct). -/
theorem c1_backoff_schedule :
    (eventsUpTo c1env 4 =
      [LEvent.sleep 1, LEvent.sleep 2, LEvent.sleep 4, LEvent.sleep 1]) ∧
    (∀ (n : Nat) (cOk sOk : Bool) (msgs : List RMessage),
      (listenStep ⟨n, false⟩ ⟨cOk, sOk, msgs, true⟩).1.retry_sleep =
        if n * 2 > 60 then 60 else n * 2) ∧
    (∀ (n : Nat) (msgs : List RMessage),
      (listenStep ⟨n, true⟩ ⟨true, true, msgs, false⟩).1 = ⟨1, true⟩) ∧
    ((listenStep ⟨60, false⟩ ⟨true, true, [], true⟩).1.retry_sleep = 60) := by
  refine ⟨by decide, ?_, ?_, by decide⟩
  · intro n cOk sOk msgs
    simp [listenStep, backoff]
  · intro n msgs
    simp [listenStep]

/-- Characterization of the listen filter on one message. -/
lemma listenFilter_eq_some (c : String) (m : RMessage) (d : Nat) :
    RedisManager.listenFilter c m = some d ↔
      (m.channel = c ∧ m.type = "message" ∧ m.data = some d) := by
  unfold RedisManager.listenFilter
  rcases hd : m.data with _ | x
  · simp [hd]
  · by_cases h1 : m.channel = c <;> by_cases h2 : m.type = "message" <;>
      simp [hd, h1, h2]

/-- C4: `_listen` yields a payload exactly when some inbound message carries
it on the configured channel with type "message" and a present data field;
in particular control messages (type "subscribe" / "unsubscribe") and
messages on other channels are never surfaced. -/
theorem c4_listen_filter_iff :
    ∀ (chan : String) (msgs : List RMessage) (d : Nat),
      d ∈ RedisManager._listen chan msgs ↔
        ∃ m ∈ msgs, m.channel = chan ∧ m.type = "message" ∧ m.data = some d := by
  intro chan msgs d
  simp [RedisManager._listen, List.mem_filterMap, listenFilter_eq_some]

/-- C5: in the HA loop, an iteration that observes a master-switch
notification on the failover subscription (and whose broker calls succeed)
re-resolves the master via the sentinel, reconnects to it and re-subscribes,
then polls and yields within the same iteration, ending with only the fixed
poll sleep: the event list contains no back-off sleep and the loop state —
in particular the back-off delay — is left untouched. -/
theorem c5_failover_immediate_reconnect :
    ∀ (r : Nat) (ro so : Bool) (master : String × Nat) (mm : Option RMessage),
      sentinelStep ⟨r, false⟩ ⟨ro, so, some true, true, true, master, some mm⟩ =
        (⟨r, false⟩,
         [SEvent.resolve master, SEvent.connectTo master, SEvent.subscribe]
           ++ (match mm with
               | some msg => [SEvent.yieldMsg msg]
               | none => [])
           ++ [SEvent.pollSleep]) := by
  intro r ro so master mm
  rcases mm with _ | msg <;> rfl

/-- Preservation of the delay bounds by one iteration of the direct
variant. -/
lemma listenStep_preserves (s : ListenState) (e : TryEnv)
    (h1 : 1 ≤ s.retry_sleep) (h2 : s.retry_sleep ≤ 60) :
    1 ≤ (listenStep s e).1.retry_sleep ∧ (listenStep s e).1.retry_sleep ≤ 60 := by
  unfold listenStep backoff
  by_cases hc : s.connect <;> by_cases hco : e.connectOk <;>
    by_cases hs : e.subscribeOk <;> by_cases he : e.listenErr <;>
    simp [hc, hco, hs, he] <;>
    first
    | (split_ifs <;> omega)
    | omega

/-- The state the HA try block hands on, successfully or at a raise, is the
incoming state with `retry_sleep` unchanged or reset to 1. -/
lemma sentinelTryRun_state (s : ListenState) (e : SEnv) :
    (sentinelTryRun s e).2 = Except.ok s ∨
    (sentinelTryRun s e).2 = Except.ok { s with retry_sleep := 1 } ∨
    (sentinelTryRun s e).2 = Except.error s ∨
    (sentinelTryRun s e).2 = Except.error { s with retry_sleep := 1 } := by
  rcases hf : e.failoverCheck with _ | fo <;>
    rcases hg : e.getMsg with _ | m <;>
    unfold sentinelTryRun <;>
    simp [hf, hg] <;>
    split_ifs <;>
    by_cases hc : s.connect <;> simp [hc]

/-- Preservation of the delay bounds by one iteration of the HA variant. -/
lemma sentinelStep_preserves (s : ListenState) (e : SEnv)
    (h1 : 1 ≤ s.retry_sleep) (h2 : s.retry_sleep ≤ 60) :
    1 ≤ (sentinelStep s e).1.retry_sleep ∧ (sentinelStep s e).1.retry_sleep ≤ 60 := by
  have h := sentinelTryRun_state s e
  rcases hT : sentinelTryRun s e with ⟨ev, r⟩
  rw [hT] at h
  rcases r with sE | s1
  · have hE : sE = s ∨ sE = { s with retry_sleep := 1 } := by
      rcases h with h | h | h | h <;> simp_all
    have hstep : sentinelStep s e =
        ({ retry_sleep := if sE.retry_sleep * 2 > 60 then 60 else sE.retry_sleep * 2,
           connect := true }, ev ++ [SEvent.backoffSleep sE.retry_sleep]) := by
      unfold sentinelStep
      rw [hT]
    rw [hstep]
    rcases hE with rfl | rfl <;> dsimp <;>
      first
      | (split_ifs <;> omega)
      | omega
  · have hO : s1 = s ∨ s1 = { s with retry_sleep := 1 } := by
      rcases h with h | h | h | h <;> simp_all
    have hstep : sentinelStep s e = (s1, ev) := by
      unfold sentinelStep
      rw [hT]
    rw [hstep]
    rcases hO with rfl | rfl <;> dsimp <;> omega

/-- Delay bounds at every iteration of the direct variant. -/
lemma stateAt_bounds (env : Nat → TryEnv) (n : Nat) :
    1 ≤ (stateAt env n).retry_sleep ∧ (stateAt env n).retry_sleep ≤ 60 := by
  induction n with
  | zero => constructor <;> simp [stateAt]
  | succ n ih =>
    have h := listenStep_preserves (stateAt env n) (env n) ih.1 ih.2
    simpa [stateAt] using h

/-- Delay bounds at every iteration of the HA variant. -/
lemma sstateAt_bounds (env : Nat → SEnv) (n : Nat) :
    1 ≤ (sstateAt env n).retry_sleep ∧ (sstateAt env n).retry_sleep ≤ 60 := by
  induction n with
  | zero => constructor <;> simp [sstateAt]
  | succ n ih =>
    have h := sentinelStep_preserves (sstateAt env n) (env n) ih.1 ih.2
    simpa [sstateAt] using h

/-- C6: at the start of every iteration of the retry loop of either variant,
for every interleaving of failures and successes chosen by the environment,
the back-off delay lies in the closed interval from 1 (the base delay) to 60
(the cap): the invariant is preserved by the failure step (double then
clamp) and by the success step (reset to 1). -/
theorem c6_backoff_delay_invariant :
    (∀ (env : Nat → TryEnv) (n : Nat),
      1 ≤ (stateAt env n).retry_sleep ∧ (stateAt env n).retry_sleep ≤ 60) ∧
    (∀ (env : Nat → SEnv) (n : Nat),
      1 ≤ (sstateAt env n).retry_sleep ∧ (sstateAt env n).retry_sleep ≤ 60) :=
  ⟨stateAt_bounds, sstateAt_bounds⟩

/-- C3: in both variants the retry loop never leaves its `while True:` body
(no iteration of any run has an exit outcome, so the yielded sequence is
never terminated by the loop itself), and every iteration in which the
broker raises `RedisError` absorbs the exception: its events end with a
back-off sleep and the successor state has the `connect` flag set, so the
next iteration attempts a reconnect — for every environment, indefinitely. -/
theorem c3_retry_absorbs_every_error :
    (∀ (env : Nat → TryEnv) (n : Nat),
      (listenStepE (stateAt env n) (env n)).isSome = true) ∧
    (∀ (s : ListenState) (e : TryEnv), stepErrored s e = true →
      (∃ d, (listenStep s e).2.getLast? = some (LEvent.sleep d)) ∧
      (listenStep s e).1.connect = true) ∧
    (∀ (env : Nat → SEnv) (n : Nat),
      (sentinelStepE (sstateAt env n) (env n)).isSome = true) ∧
    (∀ (s : ListenState) (e : SEnv), sentinelRaised s e = true →
      (∃ d, (sentinelStep s e).2.getLast? = some (SEvent.backoffSleep d)) ∧
      (sentinelStep s e).1.connect = true) := by
  refine ⟨fun env n => rfl, ?_, fun env n => rfl, ?_⟩
  · intro s e h
    unfold stepErrored at h
    unfold listenStep backoff
    by_cases hc : s.connect <;> by_cases hco : e.connectOk <;>
      by_cases hs : e.subscribeOk <;> by_cases he : e.listenErr <;>
      simp [hc, hco, hs, he] at h ⊢
  · intro s e h
    unfold sentinelRaised at h
    rcases hT : sentinelTryRun s e with ⟨ev, r⟩
    rw [hT] at h
    rcases r with sE | s1
    · have hstep : sentinelStep s e =
          ({ retry_sleep := if sE.retry_sleep * 2 > 60 then 60 else sE.retry_sleep * 2,
             connect := true }, ev ++ [SEvent.backoffSleep sE.retry_sleep]) := by
        unfold sentinelStep
        rw [hT]
      rw [hstep]
      refine ⟨⟨sE.retry_sleep, ?_⟩, rfl⟩
      dsimp only
      rw [List.getLast?_concat]
    · simp at h

/-- C3, witness: with a broker that drops the listen with a transport error
in the direct variant, respectively raises on the message poll in the HA
variant, the erroring iteration ends in a back-off sleep and schedules a
reconnect. -/
theorem c3_retry_witness :
    ((∃ d, (listenStep ⟨1, false⟩ ⟨true, true, [], true⟩).2.getLast? =
        some (LEvent.sleep d)) ∧
      (listenStep ⟨1, false⟩ ⟨true, true, [], true⟩).1.connect = true) ∧
    ((∃ d, (sentinelStep ⟨1, false⟩
        ⟨true, true, some false, true, true, ("localhost", 6379), none⟩).2.getLast? =
          some (SEvent.backoffSleep d)) ∧
      (sentinelStep ⟨1, false⟩
        ⟨true, true, some false, true, true, ("localhost", 6379), none⟩).1.connect =
        true) :=
  ⟨c3_retry_absorbs_every_error.2.1 ⟨1, false⟩ ⟨true, true, [], true⟩ rfl,
   c3_retry_absorbs_every_error.2.2.2 ⟨1, false⟩
     ⟨true, true, some false, true, true, ("localhost", 6379), none⟩ rfl⟩

/-- No payload event counts as an unsubscribe. -/
lemma countP_unsub_map (l : List Nat) :
    ((l.map OuterEvent.dataEv).countP isUnsubscribeEv) = 0 := by
  induction l with
  | nil => rfl
  | cons a t ih => simp [List.countP_cons, isUnsubscribeEv, ih]

/-- C10: the unsubscribe on line 117, placed after the message loop of
`_listen`, is unreachable: in every environment the retried listen sequence
has not terminated after any number of iterations, so the trace of `_listen`
never contains an unsubscribe event. -/
theorem c10_unsubscribe_unreachable :
    ∀ (chan : String) (env : Nat → TryEnv) (n : Nat),
      terminatedBy env n = false ∧
      (listenTrace chan env n).countP isUnsubscribeEv = 0 := by
  intro chan env n
  have hT : terminatedBy env n = false := by
    simp [terminatedBy, exitsAt, listenStepE]
  refine ⟨hT, ?_⟩
  simp [listenTrace, hT, List.countP_cons, List.countP_append, isUnsubscribeEv,
    countP_unsub_map]
